import Mathlib

/-!
# Verification of the Sturm-Liouville shooting-method eigenvalue solver

Shallow embedding of `SturmLiouvilleSolver.py`.  Machine floats are
idealised as elements of a linear ordered field `α` (instantiated at `ℚ`
for concrete evaluation and at `ℝ` where the constructor defaults involve
`π` or where `sin`/`cos` appear).  The external library calls —
`scipy.integrate.solve_ivp` and `numpy.sqrt` — are modelled as explicit
function parameters (`ivp`, `sqrtF`); everything else is translated
directly from the source.
-/

variable {α : Type} [LinearOrderedField α]

/-- The solver object: the fields set by `__init__`
(`self.x_start`, `self.x_end`, `self.num_points`, `self.x`, `self.m`). -/
structure SturmLiouvilleSolver (α : Type) where
  x_start : α
  x_end : α
  num_points : ℕ
  x : List α
  m : ℕ

/-- `np.linspace(a, b, n)`: `n` evenly spaced samples,
`x i = a + i * (b - a) / (n - 1)`. -/
def linspace (a b : α) (n : ℕ) : List α :=
  (List.range n).map (fun i : ℕ => a + (i : α) * (b - a) / ((n - 1 : ℕ) : α))

/-- `__init__(x_start, x_end, num_points)`: stores the domain parameters,
builds the grid `self.x = np.linspace(x_start, x_end, num_points)` and
sets `self.m = 1`. -/
def initSolver (a b : α) (n : ℕ) : SturmLiouvilleSolver α :=
  { x_start := a, x_end := b, num_points := n, x := linspace a b n, m := 1 }

/-- Default constructor argument `x_start = 0.0001`. -/
noncomputable def default_x_start : ℝ := 1 / 10000

/-- Default constructor argument `x_end = np.pi / 2 - 0.0001`. -/
noncomputable def default_x_end : ℝ := Real.pi / 2 - 1 / 10000

/-- Default constructor argument `num_points = 1000`. -/
def default_num_points : ℕ := 1000

/-- The data the solver passes to the external `scipy.integrate.solve_ivp`
call: the eigenvalue captured by the closure `fun=lambda x, y: ...`,
`t_span=(x_start, x_end)`, `y0=[0, initial_slope]`, `t_eval=self.x`
(the method string `RK45` is constant and omitted). -/
structure IvpInput (α : Type) where
  lam : α
  t0 : α
  t1 : α
  y0 : α × α
  t_eval : List α

/-- `solve_ivp_with_shooting(lambda_val, initial_slope)`: calls the external
integrator (parameter `ivp`, idealised as returning finite samples) with
initial conditions `[0, initial_slope]` and returns `(solution.y[0],
solution.y[1])`. -/
def solve_ivp_with_shooting (ivp : IvpInput α → List α × List α)
    (self : SturmLiouvilleSolver α) (lambda_val initial_slope : α) :
    List α × List α :=
  ivp { lam := lambda_val, t0 := self.x_start, t1 := self.x_end,
        y0 := (0, initial_slope), t_eval := self.x }

/-- Model of the object `scipy.integrate.solve_ivp` actually returns: a
`success` status flag and sample arrays whose entries may be non-finite
(`none` models a NaN or infinity produced by a broken integration). -/
structure OdeSolution (α : Type) where
  success : Bool
  y0 : List (Option α)
  y1 : List (Option α)

/-- `solve_ivp_with_shooting` at full fidelity of the scipy interface: the
source reads `solution.y[0]` and `solution.y[1]` and returns them directly,
consulting neither `solution.success` nor the finiteness of the entries. -/
def solve_ivp_with_shooting_raw (ivp : IvpInput α → OdeSolution α)
    (self : SturmLiouvilleSolver α) (lambda_val initial_slope : α) :
    List (Option α) × List (Option α) :=
  let solution := ivp { lam := lambda_val, t0 := self.x_start, t1 := self.x_end,
                        y0 := (0, initial_slope), t_eval := self.x }
  (solution.y0, solution.y1)

/-- `end_value = u[-1]` where `u, _ = self.solve_ivp_with_shooting(lambda_mid)`. -/
def end_value (ivp : IvpInput α → List α × List α)
    (self : SturmLiouvilleSolver α) (lambda_mid : α) : α :=
  ((solve_ivp_with_shooting ivp self lambda_mid 1).1).getLastD 0

/-- The payload of the `ValueError` raised by `find_eigenvalue`:
`f"Failed to converge for lambda_guess = {lambda_guess} after
{max_iterations} iterations"`. -/
structure ConvergenceFailure (α : Type) where
  lambda_guess : α
  max_iterations : ℕ
deriving DecidableEq

/-- One pass of the `for iteration in range(max_iterations)` body of
`find_eigenvalue`, as a transition on the loop state: `Sum.inl` is the
early-returned eigenvalue (absorbing), `Sum.inr` is the live bracket
`(lambda_left, lambda_right)`. -/
def bisect_step (ivp : IvpInput α → List α × List α)
    (self : SturmLiouvilleSolver α) (tolerance : α) :
    α ⊕ α × α → α ⊕ α × α
  | Sum.inl lam => Sum.inl lam
  | Sum.inr (lambda_left, lambda_right) =>
    let lambda_mid := (lambda_left + lambda_right) / 2
    let e := end_value ivp self lambda_mid
    if |e| < tolerance then Sum.inl lambda_mid
    else if e > 0 then Sum.inr (lambda_left, lambda_mid)
    else Sum.inr (lambda_mid, lambda_right)

/-- `find_eigenvalue(lambda_guess, tolerance, max_iterations)`: runs the
loop body `max_iterations` times starting from the bracket
`(lambda_guess - 5, lambda_guess + 5)`; an early `return lambda_mid`
becomes the absorbing `Sum.inl`, and falling off the loop raises
`ValueError` carrying the guess and the iteration cap. -/
def find_eigenvalue (ivp : IvpInput α → List α × List α)
    (self : SturmLiouvilleSolver α) (lambda_guess tolerance : α)
    (max_iterations : ℕ) : Except (ConvergenceFailure α) α :=
  match Nat.iterate (bisect_step ivp self tolerance) max_iterations
      (Sum.inr (lambda_guess - 5, lambda_guess + 5)) with
  | Sum.inl lam => Except.ok lam
  | Sum.inr _ => Except.error { lambda_guess := lambda_guess,
                                max_iterations := max_iterations }

/-- The eigenvalue search as the spec's section 4.3 words it: recursive
bisection over a bracket; evaluate `u(end)` at the midpoint, return the
midpoint when `|u(end)| < tolerance`, otherwise right bound to midpoint
when `u(end) > 0` and left bound to midpoint when `u(end) ≤ 0`; `none`
after the iteration budget runs out. -/
def bisection_spec (f : α → α) (tolerance : α) : α → α → ℕ → Option α
  | _, _, 0 => none
  | l, r, n + 1 =>
    let mid := (l + r) / 2
    if |f mid| < tolerance then some mid
    else if f mid > 0 then bisection_spec f tolerance l mid n
    else bisection_spec f tolerance mid r n

/-- `np.trapezoid(y, x)`: the composite trapezoidal rule
`Σ (x[i+1] - x[i]) * (y[i] + y[i+1]) / 2`. -/
def trapezoid : List α → List α → α
  | y0 :: y1 :: ys, x0 :: x1 :: xs =>
    (x1 - x0) * (y0 + y1) / 2 + trapezoid (y1 :: ys) (x1 :: xs)
  | _, _ => 0

/-- The raw shot solution `u, _ = self.solve_ivp_with_shooting(lambda_val)`
computed by the driver for the found eigenvalue. -/
def raw_u (ivp : IvpInput α → List α × List α)
    (self : SturmLiouvilleSolver α) (lambda_val : α) : List α :=
  (solve_ivp_with_shooting ivp self lambda_val 1).1

/-- The squared norm `np.trapezoid(u ** 2, self.x)` of the raw shot
solution. -/
def norm_sq (ivp : IvpInput α → List α × List α)
    (self : SturmLiouvilleSolver α) (lambda_val : α) : α :=
  trapezoid ((raw_u ivp self lambda_val).map (fun a => a ^ 2)) self.x

/-- The normalized eigenfunction `u / np.sqrt(np.trapezoid(u ** 2, self.x))`
appended by the driver (`sqrtF` models the external `np.sqrt`). -/
def normalized_u (ivp : IvpInput α → List α × List α) (sqrtF : α → α)
    (self : SturmLiouvilleSolver α) (lambda_val : α) : List α :=
  (raw_u ivp self lambda_val).map (fun a => a / sqrtF (norm_sq ivp self lambda_val))

/-- The `for i in range(num_eigenvalues)` loop of
`find_multiple_eigenvalues`, by recursion on the remaining count with the
current `lambda_guess`: find the eigenvalue (a `ValueError` propagates),
shoot at it, normalize, append, and continue from `lambda_val + 5`. -/
def eigenvalue_loop (ivp : IvpInput α → List α × List α) (sqrtF : α → α)
    (self : SturmLiouvilleSolver α) :
    ℕ → α → Except (ConvergenceFailure α) (List (α × List α))
  | 0, _ => Except.ok []
  | n + 1, lambda_guess =>
    match find_eigenvalue ivp self lambda_guess (1 / 1000000) 100 with
    | Except.error e => Except.error e
    | Except.ok lambda_val =>
      let u := (solve_ivp_with_shooting ivp self lambda_val 1).1
      let norm := sqrtF (trapezoid (u.map (fun a => a ^ 2)) self.x)
      let un := u.map (fun a => a / norm)
      match eigenvalue_loop ivp sqrtF self n (lambda_val + 5) with
      | Except.error e => Except.error e
      | Except.ok rest => Except.ok ((lambda_val, un) :: rest)

/-- `find_multiple_eigenvalues(num_eigenvalues)`: runs the loop starting
from the initial guess `lambda_guess = 1.0`; returns the ordered list of
`(eigenvalue, normalized eigenfunction)` pairs (the source zips the same
data into two parallel arrays). -/
def find_multiple_eigenvalues (ivp : IvpInput α → List α × List α)
    (sqrtF : α → α) (self : SturmLiouvilleSolver α) (num_eigenvalues : ℕ) :
    Except (ConvergenceFailure α) (List (α × List α)) :=
  eigenvalue_loop ivp sqrtF self num_eigenvalues 1

/-- The local `sin_x` of `equation_system` after the safeguard
`if abs(sin_x) < 1e-10: sin_x = 1e-10`. -/
noncomputable def clamped_sin (x : ℝ) : ℝ :=
  if |Real.sin x| < 1 / 10 ^ 10 then 1 / 10 ^ 10 else Real.sin x

/-- `equation_system(x, y, lambda_val)`: the first-order system
`[du, (-q*du - (r - lambda_val)*u) / p]` with
`p = -0.5*cos(x)^4`, `q = -0.5*cos(x)^3*cos(2x)/sin_x`,
`r = m^2*cos(x)^2/(2*sin_x^2) - cos(x)/sin_x`,
where `sin_x` is the clamped sine. -/
noncomputable def equation_system (m : ℕ) (x : ℝ) (y : ℝ × ℝ)
    (lambda_val : ℝ) : ℝ × ℝ :=
  let u := y.1
  let du := y.2
  let cos_x := Real.cos x
  let sin_x := clamped_sin x
  let cos_2x := Real.cos (2 * x)
  let p := -(1 / 2) * cos_x ^ 4
  let q := -(1 / 2) * (cos_x ^ 3 * cos_2x / sin_x)
  let r := (m : ℝ) ^ 2 * cos_x ^ 2 / (2 * sin_x ^ 2) - cos_x / sin_x
  (du, (-q * du - (r - lambda_val) * u) / p)

/-- Stateful reading of `equation_system`: the method reads `self.m` and
assigns no field, so it returns the solver state unchanged. -/
noncomputable def equation_system_st (self : SturmLiouvilleSolver ℝ)
    (x : ℝ) (y : ℝ × ℝ) (lambda_val : ℝ) : (ℝ × ℝ) × SturmLiouvilleSolver ℝ :=
  (equation_system self.m x y lambda_val, self)

/-- Stateful reading of `solve_ivp_with_shooting`: reads `self.x_start`,
`self.x_end`, `self.x`; assigns no field. -/
def solve_ivp_with_shooting_st (ivp : IvpInput α → List α × List α)
    (self : SturmLiouvilleSolver α) (lambda_val initial_slope : α) :
    (List α × List α) × SturmLiouvilleSolver α :=
  (solve_ivp_with_shooting ivp self lambda_val initial_slope, self)

/-- Stateful reading of `find_eigenvalue`: only reads fields through
`solve_ivp_with_shooting`; assigns no field. -/
def find_eigenvalue_st (ivp : IvpInput α → List α × List α)
    (self : SturmLiouvilleSolver α) (lambda_guess tolerance : α)
    (max_iterations : ℕ) :
    Except (ConvergenceFailure α) α × SturmLiouvilleSolver α :=
  (find_eigenvalue ivp self lambda_guess tolerance max_iterations, self)

/-- Stateful reading of the driver loop, threading the state returned by
each callee into the next call. -/
def eigenvalue_loop_st (ivp : IvpInput α → List α × List α) (sqrtF : α → α) :
    ℕ → α → SturmLiouvilleSolver α →
    Except (ConvergenceFailure α) (List (α × List α)) × SturmLiouvilleSolver α
  | 0, _, self => (Except.ok [], self)
  | n + 1, lambda_guess, self =>
    match find_eigenvalue_st ivp self lambda_guess (1 / 1000000) 100 with
    | (Except.error e, s1) => (Except.error e, s1)
    | (Except.ok lambda_val, s1) =>
      match solve_ivp_with_shooting_st ivp s1 lambda_val 1 with
      | ((u, _), s2) =>
        let norm := sqrtF (trapezoid (u.map (fun a => a ^ 2)) s2.x)
        let un := u.map (fun a => a / norm)
        match eigenvalue_loop_st ivp sqrtF n (lambda_val + 5) s2 with
        | (Except.error e, s3) => (Except.error e, s3)
        | (Except.ok rest, s3) => (Except.ok ((lambda_val, un) :: rest), s3)

/-- Stateful reading of `find_multiple_eigenvalues`. -/
def find_multiple_eigenvalues_st (ivp : IvpInput α → List α × List α)
    (sqrtF : α → α) (num_eigenvalues : ℕ) (self : SturmLiouvilleSolver α) :
    Except (ConvergenceFailure α) (List (α × List α)) × SturmLiouvilleSolver α :=
  eigenvalue_loop_st ivp sqrtF num_eigenvalues 1 self

/-- Witness fixture: an integrator whose sample arrays are identically
zero, matching the grid length. -/
noncomputable def wIvp : IvpInput ℝ → List ℝ × List ℝ :=
  fun inp => (inp.t_eval.map (fun _ => 0), inp.t_eval.map (fun _ => 0))

/-- Witness fixture: a model square root that is constantly `1`. -/
noncomputable def wSqrt : ℝ → ℝ := fun _ => 1

/-- Witness fixture over `ℚ`: an integrator whose shot solution is always
`[2, 0]` — the end value `0` makes every eigenvalue search accept its
first midpoint, and the solution has nonzero norm. -/
def wIvpQ0 : IvpInput ℚ → List ℚ × List ℚ := fun _ => ([2, 0], [0, 0])

/-- Witness fixture over `ℚ`: an integrator whose shot solution always
ends at `1`, so no tolerance below `1` is ever met. -/
def wIvpQ1 : IvpInput ℚ → List ℚ × List ℚ := fun _ => ([1], [1])

/-- Witness fixture over `ℚ`: a model square root (identity, which is
correct at the argument `1` arising in the witnesses). -/
def wSqrtQ : ℚ → ℚ := fun a => a

/-- Witness fixture over `ℚ`: a two-point solver on `[0, 1/2]`. -/
def wSelfQ : SturmLiouvilleSolver ℚ := initSolver 0 (1 / 2) 2

section Lemmas

variable (ivp : IvpInput α → List α × List α) (self : SturmLiouvilleSolver α)
variable (tolerance : α)

theorem trapezoid_nil (xs : List α) : trapezoid ([] : List α) xs = 0 := by
  cases xs <;> rfl

theorem bisect_step_inl (m : α) :
    bisect_step ivp self tolerance (Sum.inl m) = Sum.inl m := rfl

theorem iterate_bisect_inl (n : ℕ) (m : α) :
    Nat.iterate (bisect_step ivp self tolerance) n (Sum.inl m) = Sum.inl m := by
  induction n with
  | zero => rfl
  | succ k ih => rw [Function.iterate_succ_apply, bisect_step_inl, ih]

theorem iterate_bisect_eq_spec (n : ℕ) (l r lam : α) :
    Nat.iterate (bisect_step ivp self tolerance) n (Sum.inr (l, r)) = Sum.inl lam ↔
      bisection_spec (end_value ivp self) tolerance l r n = some lam := by
  induction n generalizing l r with
  | zero => simp [Nat.iterate, bisection_spec]
  | succ k ih =>
    rw [Function.iterate_succ_apply]
    by_cases h1 : |end_value ivp self ((l + r) / 2)| < tolerance
    · simp only [bisect_step, bisection_spec, h1, if_pos]
      rw [iterate_bisect_inl]
      constructor
      · intro h; cases h; rfl
      · intro h; cases h; rfl
    · by_cases h2 : end_value ivp self ((l + r) / 2) > 0
      · simp only [bisect_step, bisection_spec, h1, h2, if_neg, if_pos,
          not_false_iff]
        exact ih l ((l + r) / 2)
      · simp only [bisect_step, bisection_spec, h1, h2, if_neg,
          not_false_iff]
        exact ih ((l + r) / 2) r

theorem iterate_bisect_stuck (n : ℕ)
    (h : ∀ lam : α, ¬ |end_value ivp self lam| < tolerance) (p : α × α) :
    ∃ q : α × α,
      Nat.iterate (bisect_step ivp self tolerance) n (Sum.inr p) = Sum.inr q := by
  induction n generalizing p with
  | zero => exact ⟨p, rfl⟩
  | succ k ih =>
    rw [Function.iterate_succ_apply]
    obtain ⟨l, r⟩ := p
    by_cases h2 : end_value ivp self ((l + r) / 2) > 0
    · simp only [bisect_step, h ((l + r) / 2), h2, if_neg, if_pos,
        not_false_iff]
      exact ih (l, (l + r) / 2)
    · simp only [bisect_step, h ((l + r) / 2), h2, if_neg, not_false_iff]
      exact ih ((l + r) / 2, r)

theorem find_eigenvalue_stuck (lambda_guess : α) (max_iterations : ℕ)
    (h : ∀ lam : α, ¬ |end_value ivp self lam| < tolerance) :
    find_eigenvalue ivp self lambda_guess tolerance max_iterations =
      Except.error { lambda_guess := lambda_guess,
                     max_iterations := max_iterations } := by
  unfold find_eigenvalue
  obtain ⟨q, hq⟩ := iterate_bisect_stuck ivp self tolerance max_iterations h
    (lambda_guess - 5, lambda_guess + 5)
  rw [hq]

theorem find_eigenvalue_first_mid (lambda_guess : α) (max_iterations : ℕ)
    (hmi : max_iterations ≠ 0)
    (h : |end_value ivp self ((lambda_guess - 5 + (lambda_guess + 5)) / 2)| <
      tolerance) :
    find_eigenvalue ivp self lambda_guess tolerance max_iterations =
      Except.ok lambda_guess := by
  have hmid : (lambda_guess - 5 + (lambda_guess + 5)) / 2 = lambda_guess := by
    ring
  cases max_iterations with
  | zero => exact absurd rfl hmi
  | succ n =>
    unfold find_eigenvalue
    rw [Function.iterate_succ_apply]
    simp only [bisect_step, h, if_pos]
    rw [iterate_bisect_inl, hmid]

theorem find_eigenvalue_error_eq (lambda_guess tolerance : α)
    (max_iterations : ℕ) (e : ConvergenceFailure α)
    (h : find_eigenvalue ivp self lambda_guess tolerance max_iterations =
      Except.error e) :
    e = { lambda_guess := lambda_guess, max_iterations := max_iterations } := by
  unfold find_eigenvalue at h
  rcases hit : Nat.iterate (bisect_step ivp self tolerance) max_iterations
      (Sum.inr (lambda_guess - 5, lambda_guess + 5)) with m | q <;>
    rw [hit] at h <;> cases h
  rfl

theorem iterate_bisect_bounds (n : ℕ) (l r lam : α) (hlr : l < r)
    (h : Nat.iterate (bisect_step ivp self tolerance) n (Sum.inr (l, r)) =
      Sum.inl lam) :
    l < lam ∧ lam < r := by
  induction n generalizing l r with
  | zero => simp [Nat.iterate] at h
  | succ k ih =>
    rw [Function.iterate_succ_apply] at h
    have hl : l < (l + r) / 2 := by
      rw [lt_div_iff₀ (by norm_num : (0 : α) < 2)]; linarith
    have hr : (l + r) / 2 < r := by
      rw [div_lt_iff₀ (by norm_num : (0 : α) < 2)]; linarith
    by_cases h1 : |end_value ivp self ((l + r) / 2)| < tolerance
    · simp only [bisect_step, h1, if_pos] at h
      rw [iterate_bisect_inl] at h
      cases h
      exact ⟨hl, hr⟩
    · by_cases h2 : end_value ivp self ((l + r) / 2) > 0
      · simp only [bisect_step, h1, h2, if_neg, if_pos, not_false_iff] at h
        obtain ⟨a, b⟩ := ih l ((l + r) / 2) hl h
        exact ⟨a, lt_trans b hr⟩
      · simp only [bisect_step, h1, h2, if_neg, not_false_iff] at h
        obtain ⟨a, b⟩ := ih ((l + r) / 2) r hr h
        exact ⟨lt_trans hl a, b⟩

theorem find_eigenvalue_ok_bounds (lambda_guess tolerance : α)
    (max_iterations : ℕ) (lam : α)
    (h : find_eigenvalue ivp self lambda_guess tolerance max_iterations =
      Except.ok lam) :
    lambda_guess - 5 < lam ∧ lam < lambda_guess + 5 := by
  unfold find_eigenvalue at h
  rcases hit : Nat.iterate (bisect_step ivp self tolerance) max_iterations
      (Sum.inr (lambda_guess - 5, lambda_guess + 5)) with m | q
  · rw [hit] at h
    cases h
    exact iterate_bisect_bounds ivp self tolerance max_iterations _ _ _
      (by linarith [(by norm_num : (0 : α) < 5)]) hit
  · rw [hit] at h
    cases h

end Lemmas

/-- C2: for every guess, tolerance and max_iterations, `find_eigenvalue`
performs bisection on the bracket `[guess - 5, guess + 5]`: each iteration
evaluates `u(end)` at the bracket midpoint, returns that midpoint as soon
as `|u(end)| < tolerance`, and otherwise sets the right bound to the
midpoint when `u(end) > 0` and the left bound to the midpoint when
`u(end) ≤ 0` (spec wording captured by `bisection_spec`; exhaustion maps
to the convergence error). -/
theorem find_eigenvalue_is_spec_bisection
    (ivp : IvpInput α → List α × List α) (self : SturmLiouvilleSolver α)
    (lambda_guess tolerance : α) (max_iterations : ℕ) :
    find_eigenvalue ivp self lambda_guess tolerance max_iterations =
      match bisection_spec (end_value ivp self) tolerance (lambda_guess - 5)
          (lambda_guess + 5) max_iterations with
      | some lam => Except.ok lam
      | none => Except.error { lambda_guess := lambda_guess,
                               max_iterations := max_iterations } := by
  rcases hspec : bisection_spec (end_value ivp self) tolerance
      (lambda_guess - 5) (lambda_guess + 5) max_iterations with _ | lam
  · unfold find_eigenvalue
    rcases hit : Nat.iterate (bisect_step ivp self tolerance) max_iterations
        (Sum.inr (lambda_guess - 5, lambda_guess + 5)) with m | q
    · rw [iterate_bisect_eq_spec] at hit
      rw [hit] at hspec
      cases hspec
    · rfl
  · unfold find_eigenvalue
    rw [(iterate_bisect_eq_spec ivp self tolerance max_iterations
      (lambda_guess - 5) (lambda_guess + 5) lam).mpr hspec]

/-- C3: with `tolerance = 0` the stopping test `|u(end)| < 0` can never
hold, so `find_eigenvalue` always exhausts its iteration budget and raises
the convergence error carrying the original guess and the iteration count
— for every integrator, solver, guess and budget (in particular for
`max_iterations = 3`). -/
theorem find_eigenvalue_tol_zero_fails
    (ivp : IvpInput α → List α × List α) (self : SturmLiouvilleSolver α)
    (lambda_guess : α) (max_iterations : ℕ) :
    find_eigenvalue ivp self lambda_guess 0 max_iterations =
      Except.error { lambda_guess := lambda_guess,
                     max_iterations := max_iterations } :=
  find_eigenvalue_stuck ivp self 0 lambda_guess max_iterations
    (fun lam => not_lt.mpr (abs_nonneg (end_value ivp self lam)))

theorem trapezoid_map_mul (ys : List α) :
    ∀ (xs : List α) (k : α),
      trapezoid (ys.map (fun a => a * k)) xs = trapezoid ys xs * k := by
  induction ys with
  | nil => intro xs k; simp [trapezoid_nil]
  | cons y0 tail ih =>
    intro xs k
    cases tail with
    | nil =>
      cases xs with
      | nil => simp [trapezoid]
      | cons x0 xtail => cases xtail <;> simp [trapezoid]
    | cons y1 rest =>
      cases xs with
      | nil => simp [trapezoid]
      | cons x0 xtail =>
        cases xtail with
        | nil => simp [trapezoid]
        | cons x1 xrest =>
          simp only [List.map_cons, trapezoid]
          rw [show ((y1 * k) :: rest.map (fun a => a * k)) =
            (y1 :: rest).map (fun a => a * k) from rfl, ih (x1 :: xrest) k]
          ring

theorem trapezoid_normalized (u xs : List α) (c : α)
    (hsq : c ^ 2 = trapezoid (u.map (fun a => a ^ 2)) xs) (hne : c ≠ 0) :
    trapezoid ((u.map (fun a => a / c)).map (fun a => a ^ 2)) xs = 1 := by
  have h1 : (u.map (fun a => a / c)).map (fun a => a ^ 2) =
      (u.map (fun a => a ^ 2)).map (fun b => b * (1 / c ^ 2)) := by
    rw [List.map_map, List.map_map]
    have h2 : ((fun a => a ^ 2) ∘ (fun a : α => a / c)) =
        ((fun b => b * (1 / c ^ 2)) ∘ (fun a : α => a ^ 2)) := by
      funext a
      simp only [Function.comp]
      rw [div_pow]
      ring
    rw [h2]
  rw [h1, trapezoid_map_mul, ← hsq, mul_one_div,
    div_self (pow_ne_zero 2 hne)]

theorem eigenvalue_loop_zero (ivp : IvpInput α → List α × List α)
    (sqrtF : α → α) (self : SturmLiouvilleSolver α) (g : α) :
    eigenvalue_loop ivp sqrtF self 0 g = Except.ok [] := rfl

theorem eigenvalue_loop_succ (ivp : IvpInput α → List α × List α)
    (sqrtF : α → α) (self : SturmLiouvilleSolver α) (n : ℕ) (g : α) :
    eigenvalue_loop ivp sqrtF self (n + 1) g =
      match find_eigenvalue ivp self g (1 / 1000000) 100 with
      | Except.error e => Except.error e
      | Except.ok lam =>
        match eigenvalue_loop ivp sqrtF self n (lam + 5) with
        | Except.error e => Except.error e
        | Except.ok rest =>
          Except.ok ((lam, normalized_u ivp sqrtF self lam) :: rest) := rfl

theorem eigenvalue_loop_ok_length (ivp : IvpInput α → List α × List α)
    (sqrtF : α → α) (self : SturmLiouvilleSolver α) :
    ∀ (n : ℕ) (g : α) (l : List (α × List α)),
      eigenvalue_loop ivp sqrtF self n g = Except.ok l → l.length = n := by
  intro n
  induction n with
  | zero =>
    intro g l h
    rw [eigenvalue_loop_zero] at h
    cases h
    rfl
  | succ k ih =>
    intro g l h
    rw [eigenvalue_loop_succ] at h
    split at h
    · exact Except.noConfusion h
    · split at h
      · exact Except.noConfusion h
      · rename_i x1 lam hfe x2 rest hrec
        injection h with h2
        rw [← h2]
        simp [ih (lam + 5) rest hrec]

theorem eigenvalue_loop_error_src (ivp : IvpInput α → List α × List α)
    (sqrtF : α → α) (self : SturmLiouvilleSolver α) :
    ∀ (n : ℕ) (g : α) (e : ConvergenceFailure α),
      eigenvalue_loop ivp sqrtF self n g = Except.error e →
        e.max_iterations = 100 ∧
          find_eigenvalue ivp self e.lambda_guess (1 / 1000000) 100 =
            Except.error e := by
  intro n
  induction n with
  | zero =>
    intro g e h
    rw [eigenvalue_loop_zero] at h
    exact Except.noConfusion h
  | succ k ih =>
    intro g e h
    rw [eigenvalue_loop_succ] at h
    split at h
    · rename_i x1 e0 hfe
      injection h with h2
      subst h2
      have he := find_eigenvalue_error_eq ivp self g (1 / 1000000) 100 e0 hfe
      subst he
      exact ⟨rfl, hfe⟩
    · split at h
      · rename_i x1 lam hfe x2 e2 hrec
        injection h with h2
        subst h2
        exact ih (lam + 5) e2 hrec
      · exact Except.noConfusion h

theorem eigenvalue_loop_sorted (ivp : IvpInput α → List α × List α)
    (sqrtF : α → α) (self : SturmLiouvilleSolver α) :
    ∀ (n : ℕ) (g : α) (l : List (α × List α)),
      eigenvalue_loop ivp sqrtF self n g = Except.ok l →
        List.Chain' (fun p q : α × List α => p.1 < q.1) l ∧
          ∀ p, l.head? = some p → g - 5 < p.1 := by
  intro n
  induction n with
  | zero =>
    intro g l h
    rw [eigenvalue_loop_zero] at h
    cases h
    exact ⟨List.chain'_nil, fun p hp => by cases hp⟩
  | succ k ih =>
    intro g l h
    rw [eigenvalue_loop_succ] at h
    split at h
    · exact Except.noConfusion h
    · split at h
      · exact Except.noConfusion h
      · rename_i x1 lam hfe x2 rest hrec
        injection h with h2
        subst h2
        obtain ⟨hchain, hhead⟩ := ih (lam + 5) rest hrec
        have hb := find_eigenvalue_ok_bounds ivp self g (1 / 1000000) 100 lam hfe
        refine ⟨List.chain'_cons'.mpr ⟨fun q hq => ?_, hchain⟩,
          fun p hp => ?_⟩
        · have := hhead q hq
          linarith
        · cases hp
          exact hb.1

theorem eigenvalue_loop_mem_normalized (ivp : IvpInput α → List α × List α)
    (sqrtF : α → α) (self : SturmLiouvilleSolver α) :
    ∀ (n : ℕ) (g : α) (l : List (α × List α)),
      eigenvalue_loop ivp sqrtF self n g = Except.ok l →
        ∀ p ∈ l, p.2 = normalized_u ivp sqrtF self p.1 := by
  intro n
  induction n with
  | zero =>
    intro g l h
    rw [eigenvalue_loop_zero] at h
    cases h
    intro p hp
    cases hp
  | succ k ih =>
    intro g l h
    rw [eigenvalue_loop_succ] at h
    split at h
    · exact Except.noConfusion h
    · split at h
      · exact Except.noConfusion h
      · rename_i x1 lam hfe x2 rest hrec
        injection h with h2
        subst h2
        intro p hp
        rcases List.mem_cons.mp hp with hp | hp
        · subst hp
          rfl
        · exact ih (lam + 5) rest hrec p hp

/-- C4: every eigenfunction returned by `find_multiple_eigenvalues` is the
raw shot solution `u` divided by `sqrt` of the trapezoidal-rule integral
of `u²` over the domain grid, and — provided that square root is an actual
(finite) square root of the integral and is nonzero — the trapezoidal-rule
integral of the returned eigenfunction's square over the domain equals 1. -/
theorem find_multiple_eigenvalues_normalized
    (ivp : IvpInput α → List α × List α) (sqrtF : α → α)
    (self : SturmLiouvilleSolver α) (n : ℕ) (l : List (α × List α))
    (h : find_multiple_eigenvalues ivp sqrtF self n = Except.ok l)
    (lam : α) (u : List α) (hmem : (lam, u) ∈ l) :
    u = (raw_u ivp self lam).map
        (fun a => a / sqrtF (norm_sq ivp self lam)) ∧
      (sqrtF (norm_sq ivp self lam) ^ 2 = norm_sq ivp self lam →
        sqrtF (norm_sq ivp self lam) ≠ 0 →
        trapezoid (u.map (fun a => a ^ 2)) self.x = 1) := by
  have hu : u = normalized_u ivp sqrtF self lam :=
    eigenvalue_loop_mem_normalized ivp sqrtF self n 1 l h (lam, u) hmem
  constructor
  · exact hu
  · intro hsq hne
    rw [hu]
    exact trapezoid_normalized (raw_u ivp self lam) self.x
      (sqrtF (norm_sq ivp self lam)) hsq hne

/-- C5: the eigenvalue sequence returned by a successful
`find_multiple_eigenvalues(n)` with `n ≥ 2` is strictly increasing: the
search for eigenvalue `i+1` starts from guess `λᵢ + 5`, i.e. bracket
`[λᵢ, λᵢ + 10]`, and every accepted bisection midpoint lies strictly
inside its bracket. -/
theorem find_multiple_eigenvalues_sorted
    (ivp : IvpInput α → List α × List α) (sqrtF : α → α)
    (self : SturmLiouvilleSolver α) (n : ℕ) (_hn : 2 ≤ n)
    (l : List (α × List α))
    (h : find_multiple_eigenvalues ivp sqrtF self n = Except.ok l) :
    List.Chain' (fun a b : α => a < b) (l.map Prod.fst) :=
  (List.chain'_map Prod.fst).mpr
    (eigenvalue_loop_sorted ivp sqrtF self n 1 l h).1

/-- C6: if any eigenvalue search inside `find_multiple_eigenvalues` raises
its convergence error, the driver propagates exactly that error (it is the
error of a default-parameter `find_eigenvalue` call at the guess it
carries) and the caller receives no partial list of eigenpairs. -/
theorem find_multiple_eigenvalues_propagates
    (ivp : IvpInput α → List α × List α) (sqrtF : α → α)
    (self : SturmLiouvilleSolver α) (n : ℕ) (e : ConvergenceFailure α)
    (h : find_multiple_eigenvalues ivp sqrtF self n = Except.error e) :
    find_eigenvalue ivp self e.lambda_guess (1 / 1000000) 100 =
        Except.error e ∧
      e.max_iterations = 100 ∧
      ∀ l : List (α × List α),
        find_multiple_eigenvalues ivp sqrtF self n ≠ Except.ok l := by
  obtain ⟨h1, h2⟩ := eigenvalue_loop_error_src ivp sqrtF self n 1 e h
  exact ⟨h2, h1, fun l hl => by rw [h] at hl; exact Except.noConfusion hl⟩

theorem wIvpQ0_end_value (lam : ℚ) : end_value wIvpQ0 wSelfQ lam = 0 := rfl

theorem wIvpQ0_find_eigenvalue (g : ℚ) :
    find_eigenvalue wIvpQ0 wSelfQ g (1 / 1000000) 100 = Except.ok g := by
  refine find_eigenvalue_first_mid wIvpQ0 wSelfQ (1 / 1000000) g 100
    (by norm_num) ?_
  rw [wIvpQ0_end_value]
  norm_num

theorem wIvpQ0_loop_one (g : ℚ) :
    eigenvalue_loop wIvpQ0 wSqrtQ wSelfQ 1 g =
      Except.ok [(g, normalized_u wIvpQ0 wSqrtQ wSelfQ g)] := by
  rw [show (1 : ℕ) = 0 + 1 from rfl, eigenvalue_loop_succ,
    wIvpQ0_find_eigenvalue g]
  rfl

theorem wIvpQ0_drv_one :
    find_multiple_eigenvalues wIvpQ0 wSqrtQ wSelfQ 1 =
      Except.ok [(1, normalized_u wIvpQ0 wSqrtQ wSelfQ 1)] :=
  wIvpQ0_loop_one 1

theorem wIvpQ0_drv_two :
    find_multiple_eigenvalues wIvpQ0 wSqrtQ wSelfQ 2 =
      Except.ok [(1, normalized_u wIvpQ0 wSqrtQ wSelfQ 1),
        (6, normalized_u wIvpQ0 wSqrtQ wSelfQ 6)] := by
  unfold find_multiple_eigenvalues
  rw [show (2 : ℕ) = 1 + 1 from rfl, eigenvalue_loop_succ,
    wIvpQ0_find_eigenvalue 1]
  simp only [wIvpQ0_loop_one]
  norm_num

theorem wIvpQ0_norm_sq : norm_sq wIvpQ0 wSelfQ 1 = 1 := by
  norm_num [norm_sq, raw_u, solve_ivp_with_shooting, wIvpQ0, wSelfQ,
    initSolver, linspace, List.range_succ, trapezoid]

/-- Witness for C4: on a concrete converging run the returned
eigenfunction is the normalized shot solution and its trapezoidal square
integral is 1. -/
theorem find_multiple_eigenvalues_normalized_witness :
    normalized_u wIvpQ0 wSqrtQ wSelfQ 1 =
        (raw_u wIvpQ0 wSelfQ 1).map
          (fun a => a / wSqrtQ (norm_sq wIvpQ0 wSelfQ 1)) ∧
      trapezoid ((normalized_u wIvpQ0 wSqrtQ wSelfQ 1).map (fun a => a ^ 2))
        wSelfQ.x = 1 := by
  have H := find_multiple_eigenvalues_normalized wIvpQ0 wSqrtQ wSelfQ 1
    [(1, normalized_u wIvpQ0 wSqrtQ wSelfQ 1)] wIvpQ0_drv_one 1
    (normalized_u wIvpQ0 wSqrtQ wSelfQ 1) (by simp)
  refine ⟨H.1, H.2 ?_ ?_⟩
  · rw [wIvpQ0_norm_sq]
    norm_num [wSqrtQ]
  · rw [wIvpQ0_norm_sq]
    norm_num [wSqrtQ]

/-- Witness for C5: a concrete two-eigenvalue run returns the strictly
increasing eigenvalue sequence `[1, 6]`. -/
theorem find_multiple_eigenvalues_sorted_witness :
    (2 : ℕ) ≤ 2 ∧
      List.Chain' (fun a b : ℚ => a < b)
        (([(1, normalized_u wIvpQ0 wSqrtQ wSelfQ 1),
          (6, normalized_u wIvpQ0 wSqrtQ wSelfQ 6)]).map Prod.fst) :=
  ⟨le_refl 2, find_multiple_eigenvalues_sorted wIvpQ0 wSqrtQ wSelfQ 2
    (le_refl 2) _ wIvpQ0_drv_two⟩

theorem wIvpQ1_stuck (lam : ℚ) :
    ¬ |end_value wIvpQ1 wSelfQ lam| < (1 / 1000000 : ℚ) := by
  have h : end_value wIvpQ1 wSelfQ lam = 1 := rfl
  rw [h]
  norm_num

theorem wIvpQ1_drv_err :
    find_multiple_eigenvalues wIvpQ1 wSqrtQ wSelfQ 1 =
      Except.error { lambda_guess := 1, max_iterations := 100 } := by
  have hfe := find_eigenvalue_stuck wIvpQ1 wSelfQ (1 / 1000000) 1 100
    wIvpQ1_stuck
  unfold find_multiple_eigenvalues
  rw [show (1 : ℕ) = 0 + 1 from rfl, eigenvalue_loop_succ, hfe]

/-- Witness for C6: a concrete run whose first search exhausts its budget
propagates exactly that search's convergence error to the caller. -/
theorem find_multiple_eigenvalues_propagates_witness :
    find_multiple_eigenvalues wIvpQ1 wSqrtQ wSelfQ 1 =
        Except.error { lambda_guess := (1 : ℚ), max_iterations := 100 } ∧
      find_eigenvalue wIvpQ1 wSelfQ (1 : ℚ) (1 / 1000000) 100 =
        Except.error { lambda_guess := (1 : ℚ), max_iterations := 100 } :=
  ⟨wIvpQ1_drv_err,
    (find_multiple_eigenvalues_propagates wIvpQ1 wSqrtQ wSelfQ 1
      { lambda_guess := 1, max_iterations := 100 } wIvpQ1_drv_err).1⟩

/-- C7: `equation_system` replaces `sin(x)` by the floor `1e-10` whenever
`|sin(x)| < 1e-10`, so the divisor `clamped_sin x` (used for the `q` and
`r` coefficients' divisions by `sin` and `sin²`) is bounded away from zero
— neither it nor its square is ever zero — and the returned first
component is `du` as a pure function of the arguments. -/
theorem equation_system_safe_divisor (m : ℕ) (x u du lambda_val : ℝ) :
    (|Real.sin x| < 1 / 10 ^ 10 → clamped_sin x = 1 / 10 ^ 10) ∧
      (¬ |Real.sin x| < 1 / 10 ^ 10 → clamped_sin x = Real.sin x) ∧
      1 / 10 ^ 10 ≤ |clamped_sin x| ∧
      clamped_sin x ≠ 0 ∧ clamped_sin x ^ 2 ≠ 0 ∧
      (equation_system m x (u, du) lambda_val).1 = du := by
  have hge : (1 : ℝ) / 10 ^ 10 ≤ |clamped_sin x| := by
    unfold clamped_sin
    split
    · rw [abs_of_pos (show (0 : ℝ) < 1 / 10 ^ 10 by norm_num)]
    · next h => exact not_lt.mp h
  have hne : clamped_sin x ≠ 0 := by
    intro h0
    rw [h0, abs_zero] at hge
    norm_num at hge
  refine ⟨fun h => ?_, fun h => ?_, hge, hne, pow_ne_zero 2 hne, rfl⟩
  · unfold clamped_sin
    rw [if_pos h]
  · unfold clamped_sin
    rw [if_neg h]

/-- Witness for C7: at `x = 0` the clamp fires (`sin 0 = 0`), the divisor
is the nonzero floor, and the first derivative component passes through. -/
theorem equation_system_safe_divisor_witness :
    clamped_sin 0 = 1 / 10 ^ 10 ∧ clamped_sin 0 ≠ 0 ∧
      (equation_system 1 0 (2, 3) 4).1 = 3 :=
  ⟨(equation_system_safe_divisor 1 0 2 3 4).1
      (by rw [Real.sin_zero, abs_zero]; norm_num),
    (equation_system_safe_divisor 1 0 2 3 4).2.2.2.1,
    (equation_system_safe_divisor 1 0 2 3 4).2.2.2.2.2⟩

/-- C1 evaluation (code bug): `solve_ivp_with_shooting` returns the
integrator's sample arrays unchanged even when the integration reports
failure (`success = false`) and every sample is non-finite; the function
has no error channel at all, so nothing distinct from the convergence
error can be raised and the non-finite values flow on silently. -/
theorem solve_ivp_with_shooting_raw_silent :
    solve_ivp_with_shooting_raw
        (fun _ => { success := false, y0 := [none], y1 := [none] })
        (initSolver (0 : ℚ) 1 2) 1 1 = ([none], [none]) := rfl

/-- C10: `find_multiple_eigenvalues` is deterministic — two solvers
constructed from identical `(x_start, x_end, num_points)` arguments give
identical `(eigenvalue, eigenfunction)` outputs for the same requested
count (the computation is a pure function of the constructor arguments
and the — itself deterministic — external integrator and square root). -/
theorem find_multiple_eigenvalues_deterministic
    (ivp : IvpInput α → List α × List α) (sqrtF : α → α)
    (a b : α) (np1 : ℕ) (a2 b2 : α) (np2 : ℕ) (k : ℕ)
    (ha : a = a2) (hb : b = b2) (hn : np1 = np2) :
    find_multiple_eigenvalues ivp sqrtF (initSolver a b np1) k =
      find_multiple_eigenvalues ivp sqrtF (initSolver a2 b2 np2) k := by
  subst ha
  subst hb
  subst hn
  rfl

/-- Witness for C10: two identically-constructed two-point solvers return
the same single-eigenvalue output. -/
theorem find_multiple_eigenvalues_deterministic_witness :
    find_multiple_eigenvalues wIvpQ0 wSqrtQ (initSolver (0 : ℚ) (1 / 2) 2) 1 =
      find_multiple_eigenvalues wIvpQ0 wSqrtQ (initSolver (0 : ℚ) (1 / 2) 2) 1 :=
  find_multiple_eigenvalues_deterministic wIvpQ0 wSqrtQ 0 (1 / 2) 2 0 (1 / 2) 2 1
    rfl rfl rfl

theorem eigenvalue_loop_st_zero (ivp : IvpInput α → List α × List α)
    (sqrtF : α → α) (g : α) (s : SturmLiouvilleSolver α) :
    eigenvalue_loop_st ivp sqrtF 0 g s = (Except.ok [], s) := rfl

theorem find_eigenvalue_st_eq (ivp : IvpInput α → List α × List α)
    (s : SturmLiouvilleSolver α) (g tol : α) (mi : ℕ) :
    find_eigenvalue_st ivp s g tol mi = (find_eigenvalue ivp s g tol mi, s) :=
  rfl

theorem eigenvalue_loop_st_succ (ivp : IvpInput α → List α × List α)
    (sqrtF : α → α) (n : ℕ) (g : α) (s : SturmLiouvilleSolver α) :
    eigenvalue_loop_st ivp sqrtF (n + 1) g s =
      match find_eigenvalue_st ivp s g (1 / 1000000) 100 with
      | (Except.error e, s1) => (Except.error e, s1)
      | (Except.ok lambda_val, s1) =>
        match solve_ivp_with_shooting_st ivp s1 lambda_val 1 with
        | ((u, _), s2) =>
          let norm := sqrtF (trapezoid (u.map (fun a => a ^ 2)) s2.x)
          let un := u.map (fun a => a / norm)
          match eigenvalue_loop_st ivp sqrtF n (lambda_val + 5) s2 with
          | (Except.error e, s3) => (Except.error e, s3)
          | (Except.ok rest, s3) =>
            (Except.ok ((lambda_val, un) :: rest), s3) := rfl

theorem eigenvalue_loop_st_state (ivp : IvpInput α → List α × List α)
    (sqrtF : α → α) :
    ∀ (n : ℕ) (g : α) (s : SturmLiouvilleSolver α),
      (eigenvalue_loop_st ivp sqrtF n g s).2 = s := by
  intro n
  induction n with
  | zero => intro g s; rw [eigenvalue_loop_st_zero]
  | succ k ih =>
    intro g s
    rw [eigenvalue_loop_st_succ, find_eigenvalue_st_eq]
    rcases hfe : find_eigenvalue ivp s g (1 / 1000000) 100 with e | lam
    · rfl
    · dsimp only [solve_ivp_with_shooting_st]
      have hrec := ih (lam + 5) s
      rcases hloop : eigenvalue_loop_st ivp sqrtF k (lam + 5) s with ⟨res, s3⟩
      rw [hloop] at hrec
      rcases res with e2 | rest
      · exact hrec
      · exact hrec

/-- C9: after construction every solver operation — `equation_system`,
`solve_ivp_with_shooting`, `find_eigenvalue`, `find_multiple_eigenvalues`
— returns the solver state (`x_start`, `x_end`, `num_points`, the grid
`x`, the mode number `m`) unchanged: the domain configuration is
read-only for the solver's lifetime. -/
theorem solver_state_readonly :
    (∀ (s : SturmLiouvilleSolver ℝ) (x u du lambda_val : ℝ),
      (equation_system_st s x (u, du) lambda_val).2 = s) ∧
    (∀ (s : SturmLiouvilleSolver ℝ) (ivp : IvpInput ℝ → List ℝ × List ℝ)
        (lam slope : ℝ),
      (solve_ivp_with_shooting_st ivp s lam slope).2 = s) ∧
    (∀ (s : SturmLiouvilleSolver ℝ) (ivp : IvpInput ℝ → List ℝ × List ℝ)
        (g tol : ℝ) (mi : ℕ),
      (find_eigenvalue_st ivp s g tol mi).2 = s) ∧
    (∀ (s : SturmLiouvilleSolver ℝ) (ivp : IvpInput ℝ → List ℝ × List ℝ)
        (sqrtF : ℝ → ℝ) (n : ℕ),
      (find_multiple_eigenvalues_st ivp sqrtF n s).2 = s) :=
  ⟨fun _ _ _ _ _ => rfl, fun _ _ _ _ => rfl, fun _ _ _ _ _ => rfl,
    fun s ivp sqrtF n => eigenvalue_loop_st_state ivp sqrtF n 1 s⟩

theorem getLastD_map_const {β γ : Type} (c : γ) :
    ∀ (xs : List β) (d : γ), xs ≠ [] →
      (xs.map (fun _ => c)).getLastD d = c := by
  intro xs
  induction xs with
  | nil => intro d h; exact absurd rfl h
  | cons b bs ih =>
    intro d _
    rw [List.map_cons, List.getLastD_cons]
    cases bs with
    | nil => rfl
    | cons b2 bs2 => exact ih c (by simp)

theorem linspace_length (a b : α) (n : ℕ) : (linspace a b n).length = n := by
  rw [linspace, List.length_map, List.length_range]

theorem initSolver_x (a b : α) (n : ℕ) :
    (initSolver a b n).x = linspace a b n := rfl

theorem linspace_ne_nil (a b : α) (n : ℕ) (hn : n ≠ 0) :
    linspace a b n ≠ [] := by
  intro h
  have := linspace_length a b n
  rw [h] at this
  exact hn this.symm

/-- C8: the constructor defaults are `x_start = 0.0001`,
`x_end = π/2 − 0.0001`, `num_points = 1000`; the grid is 1000 evenly
spaced samples `x_start + i·(x_end − x_start)/999`; and whenever
`find_multiple_eigenvalues(1)` on the default solver succeeds (with an
integrator honouring scipy's `t_eval` length contract), it returns exactly
one `(eigenvalue, eigenfunction)` pair whose eigenfunction has one
`u`-value per grid point, i.e. length 1000. -/
theorem default_solver_single_run (ivp : IvpInput ℝ → List ℝ × List ℝ)
    (sqrtF : ℝ → ℝ) (l : List (ℝ × List ℝ))
    (hlen : ∀ inp : IvpInput ℝ, ((ivp inp).1).length = inp.t_eval.length)
    (h : find_multiple_eigenvalues ivp sqrtF
        (initSolver default_x_start default_x_end default_num_points) 1 =
      Except.ok l) :
    default_x_start = 1 / 10000 ∧
      default_x_end = Real.pi / 2 - 1 / 10000 ∧
      default_num_points = 1000 ∧
      (initSolver default_x_start default_x_end default_num_points).x =
        linspace default_x_start default_x_end 1000 ∧
      (linspace default_x_start default_x_end 1000).length = 1000 ∧
      (∀ i : ℕ, i < 1000 →
        (linspace default_x_start default_x_end 1000).getD i 0 =
          default_x_start +
            (i : ℝ) * (default_x_end - default_x_start) / 999) ∧
      l.length = 1 ∧ ∀ p ∈ l, p.2.length = 1000 := by
  refine ⟨rfl, rfl, rfl, ?_, linspace_length _ _ _, fun i hi => ?_, ?_, ?_⟩
  · rw [initSolver_x, show default_num_points = 1000 from rfl]
  · rw [linspace, List.getD_eq_getElem?_getD, List.getElem?_map,
      List.getElem?_range hi]
    norm_num
  · exact eigenvalue_loop_ok_length ivp sqrtF _ 1 1 l h
  · intro p hp
    have hu := eigenvalue_loop_mem_normalized ivp sqrtF _ 1 1 l h p hp
    rw [hu]
    unfold normalized_u raw_u solve_ivp_with_shooting
    rw [List.length_map, hlen]
    dsimp only
    rw [initSolver_x, linspace_length]
    rfl

theorem wIvp_len (inp : IvpInput ℝ) :
    ((wIvp inp).1).length = inp.t_eval.length := by
  simp [wIvp]

theorem default_grid_ne_nil :
    (initSolver default_x_start default_x_end default_num_points :
      SturmLiouvilleSolver ℝ).x ≠ [] := by
  rw [initSolver_x]
  exact linspace_ne_nil _ _ _ (by decide)

theorem wIvp_end_value (lam : ℝ) :
    end_value wIvp
      (initSolver default_x_start default_x_end default_num_points) lam = 0 := by
  unfold end_value solve_ivp_with_shooting wIvp
  dsimp only
  exact getLastD_map_const 0 _ 0 default_grid_ne_nil

theorem wIvp_find_eigenvalue (g : ℝ) :
    find_eigenvalue wIvp
        (initSolver default_x_start default_x_end default_num_points) g
        (1 / 1000000) 100 = Except.ok g := by
  refine find_eigenvalue_first_mid wIvp _ (1 / 1000000) g 100 (by norm_num) ?_
  rw [wIvp_end_value]
  norm_num

theorem wIvp_drv_one :
    find_multiple_eigenvalues wIvp wSqrt
        (initSolver default_x_start default_x_end default_num_points) 1 =
      Except.ok [(1, normalized_u wIvp wSqrt
        (initSolver default_x_start default_x_end default_num_points) 1)] := by
  unfold find_multiple_eigenvalues
  rw [show (1 : ℕ) = 0 + 1 from rfl, eigenvalue_loop_succ,
    wIvp_find_eigenvalue 1]
  rfl

set_option maxRecDepth 40000 in
/-- Witness for C8: a default-constructed solver run with a concrete
integrator honouring the `t_eval` contract returns exactly one pair whose
eigenfunction has length 1000. -/
theorem default_solver_single_run_witness :
    ([((1 : ℝ), normalized_u wIvp wSqrt
        (initSolver default_x_start default_x_end default_num_points) 1)]).length
        = 1 ∧
      (normalized_u wIvp wSqrt
        (initSolver default_x_start default_x_end default_num_points) 1).length
        = 1000 := by
  have H := default_solver_single_run wIvp wSqrt _ wIvp_len wIvp_drv_one
  exact ⟨H.2.2.2.2.2.2.1,
    H.2.2.2.2.2.2.2 ((1 : ℝ), normalized_u wIvp wSqrt
      (initSolver default_x_start default_x_end default_num_points) 1)
      (List.mem_singleton.mpr rfl)⟩
